import Mathlib

/-!
Shallow embedding of the order-fulfillment and payment-reconciliation core of
the jodise marketplace backend (store/views.py, store/models.py,
accounts/models.py, services/inventory.py, services/payment.py).

Conventions of the embedding:
* Django Decimal values are modelled as rationals.  All the arithmetic the
  claims touch (products of 12-digit decimals, percentages of them, sums and
  differences) is exact in Decimal with its default 28-digit context, so the
  rational model computes the same numbers.
* Database rows are lists of structures; a save() is a functional update of
  the matching row.  A Django transaction.atomic block is modelled by the
  caller keeping the old state when the wrapped computation returns an error
  (rollback discards every write made inside the block).
* Python `x or d` on numbers maps None and 0 to d; quantities are Nat, so
  `int(quantity or 1)` becomes `if q = 0 then 1 else q`.
-/

namespace Jodise

/-- Statuses of store.models.Order.STATUS. -/
inductive OrderStatus where
  | pending | paid | processing | shipped | completed | cancelled
deriving DecidableEq, Repr

/-- Statuses of store.models.PaymentTransaction.status. -/
inductive TxStatus where
  | pending | success | failed | refunded
deriving DecidableEq, Repr

/-- Statuses of store.models.PayoutRequest.status. -/
inductive PayoutRequestStatus where
  | pending | paid | rejected
deriving DecidableEq, Repr

/-- store.models.Product, restricted to the fields this core reads. -/
structure Product where
  pid : Nat
  name : String
  price : ℚ
  stock : Nat
deriving DecidableEq, Repr

/-- accounts.models.SellerProfile, restricted to the fields this core reads.
user_id is the primary key of the related CustomUser (None when the related
user is absent); commission_rate is the nullable per-seller override. -/
structure SellerProfile where
  sid : Nat
  user_id : Option Nat
  commission_rate : Option ℚ
  bank_name : String
  bank_account_number : String
  bank_account_name : String
deriving DecidableEq, Repr

/-- store.models.OrderItem.  product_id is None when the product FK was set
to NULL; the seller FK is embedded by value. -/
structure OrderItem where
  product_id : Option Nat
  seller : Option SellerProfile
  quantity : Nat
  unit_price : ℚ
  subtotal : ℚ
  vat : ℚ
  commission : ℚ
  seller_earnings : ℚ
deriving DecidableEq, Repr

/-- store.models.Order.  delivery_method_fee models
delivery_method.flat_fee (None when no delivery method is set). -/
structure Order where
  oid : Nat
  buyer_id : Option Nat
  status : OrderStatus
  items : List OrderItem
  subtotal : ℚ
  vat : ℚ
  delivery_method_fee : Option ℚ
  delivery_fee : ℚ
  total : ℚ
deriving DecidableEq, Repr

/-- store.models.PaymentTransaction, restricted to the fields the verify and
webhook handlers read.  The opaque gateway_response payload is omitted: no
modelled control flow reads it back. -/
structure PaymentTransaction where
  reference : String
  order_id : Option Nat
  amount : ℚ
  status : TxStatus
deriving DecidableEq, Repr

/-- store.models.SellerPayout.  seller_user_id is the CustomUser pk the row
is keyed on; the paid flag and dates are never read by the modelled flows. -/
structure SellerPayout where
  order_id : Nat
  seller_user_id : Nat
  total_earned : ℚ
  vat_deducted : ℚ
  commission_deducted : ℚ
  payable_amount : ℚ
deriving DecidableEq, Repr

/-- store.models.PayoutRequest (withdrawal).  seller_id is the SellerProfile
pk. -/
structure PayoutRequest where
  seller_id : Nat
  amount : ℚ
  bank_details : String
  status : PayoutRequestStatus
deriving DecidableEq, Repr

/-- store.models.MarketplaceSetting, restricted to the rates this core
reads.  The model treats the settings row as fixed for the duration of one
request, which is how every modelled flow uses MarketplaceSetting.current(). -/
structure MarketplaceSetting where
  vat_rate : ℚ
  commission_rate : ℚ
deriving DecidableEq, Repr

/-- Database state shared by the fulfillment flows. -/
structure Db where
  products : List Product
  orders : List Order
  transactions : List PaymentTransaction
  payouts : List SellerPayout
deriving DecidableEq, Repr

/-- Row lookup Product.objects.get / the id keyed product_map. -/
def findProduct (ps : List Product) (pid : Nat) : Option Product :=
  ps.find? (fun p => p.pid == pid)

/-- Row lookup Order.objects.filter(id=oid).first(). -/
def findOrder (db : Db) (oid : Nat) : Option Order :=
  db.orders.find? (fun o => o.oid == oid)

/-- Row lookup PaymentTransaction.objects.filter(reference=ref).first(). -/
def findTransaction (db : Db) (ref : String) : Option PaymentTransaction :=
  db.transactions.find? (fun t => t.reference == ref)

/-- order.save(): replace the row with the same pk. -/
def Db.updateOrder (db : Db) (o : Order) : Db :=
  { db with orders := db.orders.map (fun r => if r.oid == o.oid then o else r) }

/-- payment.save(): replace the row with the same (unique) reference. -/
def Db.updateTransaction (db : Db) (t : PaymentTransaction) : Db :=
  { db with transactions :=
      db.transactions.map (fun r => if r.reference == t.reference then t else r) }

/-- true exactly on the tuple ("paid", "processing", "shipped", "completed")
used by the idempotency guards in store/views.py. -/
def OrderStatus.paidOrLater : OrderStatus → Bool
  | .paid | .processing | .shipped | .completed => true
  | .pending | .cancelled => false

/-- Rounding of Decimal.quantize(Decimal("1")) under the default
ROUND_HALF_EVEN context. -/
def roundHalfEven (q : ℚ) : ℤ :=
  let f : ℤ := Int.floor q
  let r : ℚ := q - (f : ℚ)
  if r < (1 : ℚ) / 2 then f
  else if (1 : ℚ) / 2 < r then f + 1
  else if f % 2 = 0 then f else f + 1

/-- store/views.py _to_kobo: int((Decimal(str(amount)) * 100).quantize(1)). -/
def toKobo (amount : ℚ) : ℤ :=
  roundHalfEven (amount * 100)

/-- store.models.OrderItem.calculate_line(commission_rate=None): the rate is
the argument when given, else config.commission_rate; then
subtotal = unit_price * quantity, vat = subtotal * vat_rate / 100,
commission = subtotal * rate / 100,
seller_earnings = subtotal - vat - commission, and the item is saved. -/
def calculate_line (config : MarketplaceSetting) (commissionRate : Option ℚ)
    (it : OrderItem) : OrderItem :=
  let rate := commissionRate.getD config.commission_rate
  let sub := it.unit_price * (it.quantity : ℚ)
  let vat := sub * config.vat_rate / 100
  let comm := sub * rate / 100
  { it with subtotal := sub, vat := vat, commission := comm,
            seller_earnings := sub - vat - comm }

/-- Body of the per-item loop of store/views.py _recalc_order_amounts:
unit_price is refreshed from the product when the FK still resolves,
quantity becomes int(quantity or 1), subtotal = unit_price * quantity. -/
def recalcItem (ps : List Product) (it : OrderItem) : OrderItem :=
  let up :=
    match it.product_id.bind (findProduct ps) with
    | some p => p.price
    | none => it.unit_price
  let q := if it.quantity = 0 then 1 else it.quantity
  { it with unit_price := up, quantity := q, subtotal := up * (q : ℚ) }

/-- store/views.py _recalc_order_amounts followed by
Order.calculate_totals: items are refreshed and saved, order.subtotal is the
sum of item subtotals, vat = subtotal * vat_rate / 100, delivery_fee is the
flat fee of the delivery method (0 without one), total is their sum. -/
def recalc_order_amounts (config : MarketplaceSetting) (ps : List Product)
    (o : Order) : Order :=
  let items := o.items.map (recalcItem ps)
  let sub := (items.map (fun it => it.subtotal)).sum
  let vat := sub * config.vat_rate / 100
  let dfee := o.delivery_method_fee.getD 0
  { o with items := items, subtotal := sub, vat := vat,
           delivery_fee := dfee, total := sub + vat + dfee }

/-- One entry of the items_data payload handed to
InventoryService.reserve_stock: the loaded product (id and name) and
int(quantity or 1). -/
structure ItemRequest where
  pid : Nat
  pname : String
  qty : Nat
deriving DecidableEq, Repr

/-- ValidationError raised by InventoryService.reserve_stock, carrying the
data interpolated into its message: the product name, and for the
insufficient case the available stock and the requested quantity. -/
inductive InvError where
  | productMissing (pname : String)
  | insufficientStock (pname : String) (available : Nat) (requested : Nat)
deriving DecidableEq, Repr

/-- product.stock -= quantity; product.save() on the locked row. -/
def decrementStock (ps : List Product) (pid : Nat) (qty : Nat) : List Product :=
  ps.map (fun p => if p.pid == pid then { p with stock := p.stock - qty } else p)

/-- services/inventory.py InventoryService.reserve_stock.  The source locks
all involved rows into product_map and then walks items_data, decrementing
as it goes and raising ValidationError at the first item whose product is
gone or whose stock is short; the threaded product list plays the role of
product_map.  The transaction.atomic decorator means an error discards
every decrement already made (the caller keeps its old product list). -/
def reserve_stock : List Product → List ItemRequest → Except InvError (List Product)
  | ps, [] => .ok ps
  | ps, req :: rest =>
    match findProduct ps req.pid with
    | none => .error (.productMissing req.pname)
    | some p =>
      if p.stock < req.qty then
        .error (.insufficientStock p.name p.stock req.qty)
      else
        reserve_stock (decrementStock ps req.pid req.qty) rest

/-- store/views.py _reserve_stock_or_fail on the InventoryService path: the
payload lists, for every order item whose product FK resolves, that product
together with int(quantity or 1). -/
def reserve_stock_or_fail (o : Order) (ps : List Product) :
    Except InvError (List Product) :=
  reserve_stock ps
    (o.items.filterMap (fun it =>
      (it.product_id.bind (findProduct ps)).map (fun p =>
        ⟨p.pid, p.name, if it.quantity = 0 then 1 else it.quantity⟩)))

/-- SellerPayout.objects.get_or_create(order=..., seller=seller_user,
defaults=zeros) followed by the four additive updates and the save. -/
def accruePayout (ps : List SellerPayout) (oid uid : Nat) (it : OrderItem) :
    List SellerPayout :=
  match ps.find? (fun p => p.order_id == oid && p.seller_user_id == uid) with
  | some p =>
    let p₂ := { p with
      total_earned := p.total_earned + it.subtotal,
      vat_deducted := p.vat_deducted + it.vat,
      commission_deducted := p.commission_deducted + it.commission,
      payable_amount := p.payable_amount + it.seller_earnings }
    ps.map (fun q => if q.order_id == oid && q.seller_user_id == uid then p₂ else q)
  | none =>
    ps ++ [{ order_id := oid, seller_user_id := uid,
             total_earned := 0 + it.subtotal, vat_deducted := 0 + it.vat,
             commission_deducted := 0 + it.commission,
             payable_amount := 0 + it.seller_earnings }]

/-- store/views.py _create_or_update_seller_payouts.  Items whose product or
seller FK does not resolve, or whose seller profile has no related user, are
skipped untouched.  For the rest the commission rate is the seller override
when present else the global rate, unit_price and subtotal are refreshed,
calculate_line recomputes the ledger fields, and the payout row keyed on
(order, seller user) is accrued additively. -/
def create_or_update_seller_payouts (config : MarketplaceSetting) (o : Order)
    (db : Db) : Db :=
  let step := fun (acc : List OrderItem × List SellerPayout) (it : OrderItem) =>
    match it.product_id.bind (findProduct db.products), it.seller with
    | some p, some s =>
      match s.user_id with
      | some uid =>
        let commissionRate := s.commission_rate.getD config.commission_rate
        let q := if it.quantity = 0 then 1 else it.quantity
        let it₂ := calculate_line config (some commissionRate)
          { it with unit_price := p.price, subtotal := p.price * (q : ℚ) }
        (acc.1 ++ [it₂], accruePayout acc.2 o.oid uid it₂)
      | none => (acc.1 ++ [it], acc.2)
    | _, _ => (acc.1 ++ [it], acc.2)
  let r := o.items.foldl step ([], db.payouts)
  Db.updateOrder { db with payouts := r.2 } { o with items := r.1 }

/-- store/views.py _fulfill_paid_order.  Returns immediately when the order
status is already paid or later; otherwise recalculates amounts, reserves
stock (propagating InsufficientStock style errors to the enclosing atomic
block), marks the order paid and accrues seller payouts.  The delivery-order
and notifier calls touch none of the modelled state and swallow their own
exceptions (non-fatal), so they are identities here. -/
def fulfill_paid_order (config : MarketplaceSetting) (o : Order) (db : Db) :
    Except InvError Db :=
  if o.status.paidOrLater then .ok db
  else
    let o₁ := recalc_order_amounts config db.products o
    let db₁ := db.updateOrder o₁
    match reserve_stock_or_fail o₁ db₁.products with
    | .error e => .error e
    | .ok ps₂ =>
      let o₂ := { o₁ with status := .paid }
      let db₂ := Db.updateOrder { db₁ with products := ps₂ } o₂
      .ok (create_or_update_seller_payouts config o₂ db₂)

/-- Outcome of the call paystack_api.verify_payment(reference) as consumed
by the verify views: either the gateway said no, or it said yes and
_extract_paystack_status_and_amount_kobo pulled the (possibly absent)
integer amount out of the response payload.  The extracted status and
currency fields are never consulted by the views, so they are omitted. -/
inductive GatewayVerify where
  | fail
  | ok (amountKobo : Option ℤ)
deriving DecidableEq, Repr

/-- Responses of store/views.py paystack_inline_verify.  okRedirect is the
JsonResponse with ok True and the order_success redirect URL, produced both
by the idempotent short circuit and by a fresh successful settlement. -/
inductive InlineVerifyResp where
  | missingReference
  | paymentNotFound
  | unauthorized
  | okRedirect
  | verificationFailed
  | amountMismatch
  | fulfillmentFailed
deriving DecidableEq, Repr

/-- The transaction.atomic block shared by the tail of the verify views:
payment.status = "success" is saved first, then _fulfill_paid_order runs; an
exception rolls the whole block back, so the caller keeps the original db. -/
def verifySettle (config : MarketplaceSetting) (payment : PaymentTransaction)
    (o : Order) (db : Db) : Option Db :=
  match fulfill_paid_order config o (db.updateTransaction { payment with status := .success }) with
  | .ok db₂ => some db₂
  | .error _ => none

/-- store/views.py paystack_inline_verify (lines 802-845), for a requester
with user pk requesterId posting the given reference, with the gateway
answer passed in.  Mirrors the source order of guards: missing reference,
payment/order lookup, buyer ownership, idempotent short circuit, gateway
failure, amount comparison against the stored order total, then the atomic
settle block. -/
def paystack_inline_verify (config : MarketplaceSetting) (requesterId : Nat)
    (reference : String) (gw : GatewayVerify) (db : Db) :
    InlineVerifyResp × Db :=
  if reference = "" then (.missingReference, db)
  else
    match findTransaction db reference with
    | none => (.paymentNotFound, db)
    | some payment =>
      match payment.order_id.bind (findOrder db) with
      | none => (.paymentNotFound, db)
      | some o =>
        if o.buyer_id ≠ some requesterId then (.unauthorized, db)
        else if payment.status = .success ∨ o.status.paidOrLater then
          (.okRedirect, db)
        else
          match gw with
          | .fail => (.verificationFailed, db.updateTransaction { payment with status := .failed })
          | .ok none =>
            match verifySettle config payment o db with
            | some db₂ => (.okRedirect, db₂)
            | none => (.fulfillmentFailed, db)
          | .ok (some a) =>
            let expectedKobo := toKobo o.total
            if expectedKobo ≠ 0 ∧ a ≠ expectedKobo then
              (.amountMismatch, db.updateTransaction { payment with status := .failed })
            else
              match verifySettle config payment o db with
              | some db₂ => (.okRedirect, db₂)
              | none => (.fulfillmentFailed, db)

/-- Responses of the fallback endpoint store/views.py verify_payment.
redirectOrderSuccess covers the already-verified short circuit and the
fresh success; redirectOrderSuccessWithWarning is the fulfilment-failed
branch, which still redirects to order_success. -/
inductive FallbackVerifyResp where
  | forbiddenMissingReference
  | badRequestNoPayment
  | redirectOrderSuccess
  | redirectCheckoutVerifyFailed
  | redirectCheckoutAmountMismatch
  | redirectOrderSuccessWithWarning
deriving DecidableEq, Repr

/-- store/views.py verify_payment (lines 851-896), the fallback verify
endpoint.  Same skeleton as paystack_inline_verify but with no buyer
ownership check and redirect responses. -/
def verify_payment_view (config : MarketplaceSetting) (reference : String)
    (gw : GatewayVerify) (db : Db) : FallbackVerifyResp × Db :=
  if reference = "" then (.forbiddenMissingReference, db)
  else
    match findTransaction db reference with
    | none => (.badRequestNoPayment, db)
    | some payment =>
      match payment.order_id.bind (findOrder db) with
      | none => (.badRequestNoPayment, db)
      | some o =>
        if payment.status = .success ∨ o.status.paidOrLater then
          (.redirectOrderSuccess, db)
        else
          match gw with
          | .fail => (.redirectCheckoutVerifyFailed, db.updateTransaction { payment with status := .failed })
          | .ok none =>
            match verifySettle config payment o db with
            | some db₂ => (.redirectOrderSuccess, db₂)
            | none => (.redirectOrderSuccessWithWarning, db)
          | .ok (some a) =>
            let expectedKobo := toKobo o.total
            if expectedKobo ≠ 0 ∧ a ≠ expectedKobo then
              (.redirectCheckoutAmountMismatch, db.updateTransaction { payment with status := .failed })
            else
              match verifySettle config payment o db with
              | some db₂ => (.redirectOrderSuccess, db₂)
              | none => (.redirectOrderSuccessWithWarning, db)

/-- Uncaught Python exception of the webhook body handling: the envelope
extraction (event.get, data.get, str.strip) raises AttributeError when the
value has the wrong shape; Django converts the uncaught exception into an
HTTP 500. -/
inductive PyError where
  | attributeError
deriving DecidableEq, Repr

/-- Values json.loads can return: null, booleans, numbers, strings, arrays
and objects.  Numbers are modelled as rationals (ints and floats share the
truthiness and no-attribute behaviour the webhook code can observe). -/
inductive Json where
  | null
  | bool (b : Bool)
  | num (q : ℚ)
  | str (s : String)
  | arr (elements : List Json)
  | obj (fields : List (String × Json))

/-- Python truthiness of a json.loads value: None, False, 0, empty string,
empty list and empty dict are falsy. -/
def Json.truthy : Json → Bool
  | .null => false
  | .bool b => b
  | .num q => decide (q ≠ 0)
  | .str s => s != ""
  | .arr xs => !xs.isEmpty
  | .obj fields => !fields.isEmpty

/-- Python value.get(key): defined on dicts only (returning None when the
key is absent); on any other value the attribute lookup raises
AttributeError. -/
def pyGet (v : Json) (key : String) : Except PyError (Option Json) :=
  match v with
  | .obj fields => .ok (fields.lookup key)
  | _ => .error .attributeError

/-- Python str.strip(): whitespace removed from both ends. -/
def pyStrip (s : String) : String :=
  ⟨((s.data.dropWhile Char.isWhitespace).reverse.dropWhile Char.isWhitespace).reverse⟩

/-- Responses of store/views.py paystack_webhook.  serverError is the HTTP
500 Django produces for the uncaught AttributeError of the envelope
extraction. -/
inductive WebhookResp where
  | unauthorized
  | invalidSignature
  | invalidJson
  | okJson
  | serverError
deriving DecidableEq, Repr

/-- Lines 998-1003 of store/views.py:
event_type = event.get("event"); data = event.get("data") or {}; and, when
event_type is one of the two handled strings,
pay_ref = (data.get("reference") or "").strip().  Returns some pay_ref in
the handled-event branch, none otherwise; raises AttributeError (as the
source does, uncaught) when event is not a dict, when a truthy data value
is not a dict, or when a truthy reference value is not a string.  The
membership test event_type in ("charge.success", "transaction.success")
only ever holds for those exact strings. -/
def webhook_pay_ref (event : Json) : Except PyError (Option String) :=
  match pyGet event "event" with
  | .error e => .error e
  | .ok event_type =>
    match pyGet event "data" with
    | .error e => .error e
    | .ok dataRaw =>
      let data := match dataRaw with
        | some v => if v.truthy then v else .obj []
        | none => .obj []
      let matched := match event_type with
        | some (.str s) => s == "charge.success" || s == "transaction.success"
        | _ => false
      if matched then
        match pyGet data "reference" with
        | .error e => .error e
        | .ok refRaw =>
          match refRaw with
          | some v =>
            if v.truthy then
              match v with
              | .str s => .ok (some (pyStrip s))
              | _ => .error .attributeError
            else .ok (some "")
          | none => .ok (some "")
      else .ok none

/-- Body handling of paystack_webhook after a valid signature and
successful json.loads (views.py 998-1014): extract the pay_ref, and in the
handled branch look up the transaction and settle inside the swallowing
atomic block; every non-raising path answers the 200 status-ok response.
An error is the AttributeError of the extraction, which occurs before any
database write. -/
def webhook_event_stage (config : MarketplaceSetting) (event : Json)
    (db : Db) : Except PyError (WebhookResp × Db) :=
  match webhook_pay_ref event with
  | .error e => .error e
  | .ok none => .ok (.okJson, db)
  | .ok (some payRef) =>
    if payRef = "" then .ok (.okJson, db)
    else
      match findTransaction db payRef with
      | none => .ok (.okJson, db)
      | some payment =>
        match payment.order_id.bind (findOrder db) with
        | none => .ok (.okJson, db)
        | some o =>
          if payment.status ≠ .success then
            match verifySettle config payment o db with
            | some db₂ => .ok (.okJson, db₂)
            | none => .ok (.okJson, db)
          else .ok (.okJson, db)

/-- store/views.py paystack_webhook (lines 980-1015).  hmacSha512Hex stands
for hmac.new(secret, body, sha512).hexdigest() over the raw body; parseJson
stands for json.loads of the raw body (none = the caught decode/parse
exception, answered with 400).  The comparison of the computed digest with
the header is _safe_compare_digest, i.e. the constant-time
hmac.compare_digest, which functionally is string equality.  A missing
header arrives as none; Python truthiness also rejects an empty secret or
an empty header.  A raising envelope extraction is uncaught in the source:
Django answers 500, and since every raise point precedes any write the
database is unchanged. -/
def paystack_webhook (hmacSha512Hex : String → String → String)
    (parseJson : String → Option Json)
    (config : MarketplaceSetting) (secret : String) (signature : Option String)
    (body : String) (db : Db) : WebhookResp × Db :=
  let sig := signature.getD ""
  if secret = "" ∨ sig = "" then (.unauthorized, db)
  else if hmacSha512Hex secret body ≠ sig then (.invalidSignature, db)
  else
    match parseJson body with
    | none => (.invalidJson, db)
    | some event =>
      match webhook_event_stage config event db with
      | .ok r => r
      | .error _ => (.serverError, db)

/-- Errors the Django ORM raises while resolving a queryset, before reading
or writing any row: check_query_object_type rejects a model instance of the
wrong class in a related-field lookup with ValueError, and an unknown field
keyword raises FieldError. -/
inductive OrmError where
  | relatedInstanceTypeMismatch
  | unknownFieldKeyword
deriving DecidableEq, Repr

/-- Value passed to a related-field lookup, tagged with its model class the
way Django sees it. -/
inductive DjangoInstance where
  | customUser (uid : Nat)
  | sellerProfile (sid : Nat)
deriving DecidableEq, Repr

/-- SellerPayout.objects.filter(seller=value).  SellerPayout.seller is a
ForeignKey to CustomUser, so Django accepts a CustomUser instance and keys
on its pk, but rejects a SellerProfile instance in
Query.check_query_object_type with ValueError
(Cannot query ...: Must be "CustomUser" instance). -/
def filterPayoutsBySeller (payouts : List SellerPayout) (value : DjangoInstance) :
    Except OrmError (List SellerPayout) :=
  match value with
  | .customUser uid => .ok (payouts.filter (fun p => p.seller_user_id == uid))
  | .sellerProfile _ => .error .relatedInstanceTypeMismatch

/-- status__in=["pending", "paid"] test on a PayoutRequest row. -/
def PayoutRequestStatus.isPendingOrPaid : PayoutRequestStatus → Bool
  | .pending | .paid => true
  | .rejected => false

/-- accounts.models.SellerProfile.wallet_balance.  The source filters
SellerPayout (whose seller FK targets CustomUser) with self, a SellerProfile
instance, so the first aggregate raises; the PayoutRequest filter (whose
seller FK targets SellerProfile) would be fine.  When a query raises, the
property raises; getattr with a default, as used in request_payout, only
swallows AttributeError, so ValueError propagates to the view. -/
def wallet_balance (profile : SellerProfile) (payouts : List SellerPayout)
    (requests : List PayoutRequest) : Except OrmError ℚ :=
  match filterPayoutsBySeller payouts (.sellerProfile profile.sid) with
  | .error e => .error e
  | .ok rows =>
    let total_earned := (rows.map (fun p => p.payable_amount)).sum
    let total_withdrawn :=
      ((requests.filter (fun r => r.seller_id == profile.sid && r.status.isPendingOrPaid)).map
        (fun r => r.amount)).sum
    .ok (total_earned - total_withdrawn)

/-- Outcomes of the POST branch of store/views.py request_payout. -/
inductive PayoutViewResp where
  | invalidAmount
  | insufficientBalance
  | created
deriving DecidableEq, Repr

/-- Bank snapshot string interpolated by request_payout:
f-string of bank_name, bank_account_number and bank_account_name. -/
def bankSnapshot (profile : SellerProfile) : String :=
  profile.bank_name ++ " - " ++ profile.bank_account_number ++
    " (" ++ profile.bank_account_name ++ ")"

/-- store/views.py request_payout (lines 1209-1226), POST branch.  The view
reads seller.wallet_balance before looking at the posted amount, so the
ValueError from the wallet lookup aborts the whole request; otherwise the
contract is: amount <= 0 rejects, amount > balance rejects, else one
PayoutRequest is created in pending status with the bank snapshot. -/
def request_payout (profile : SellerProfile) (payouts : List SellerPayout)
    (requests : List PayoutRequest) (amount : ℚ) :
    Except OrmError (PayoutViewResp × List PayoutRequest) :=
  match wallet_balance profile payouts requests with
  | .error e => .error e
  | .ok balance =>
    if amount ≤ 0 then .ok (.invalidAmount, requests)
    else if balance < amount then .ok (.insufficientBalance, requests)
    else .ok (.created, requests ++
      [{ seller_id := profile.sid, amount := amount,
         bank_details := bankSnapshot profile, status := .pending }])

/-- Modelled from the docstring of SellerProfile.wallet_balance and the spec
formula (the lookup the code intends: SellerPayout rows of the related user,
PayoutRequest rows of the profile): sum of payable_amount over the seller
payout rows minus the sum of amount over the pending or paid payout
requests of the seller. -/
def wallet_balance_intended (profile : SellerProfile)
    (payouts : List SellerPayout) (requests : List PayoutRequest) : ℚ :=
  ((payouts.filter (fun p => some p.seller_user_id == profile.user_id)).map
      (fun p => p.payable_amount)).sum
    - ((requests.filter (fun r =>
          r.seller_id == profile.sid && r.status.isPendingOrPaid)).map
        (fun r => r.amount)).sum

/-- Modelled from the spec contract of request_payout using the intended
wallet balance, i.e. the view logic of lines 1216-1226 with a wallet lookup
that does not raise. -/
def request_payout_intended (profile : SellerProfile)
    (payouts : List SellerPayout) (requests : List PayoutRequest) (amount : ℚ) :
    PayoutViewResp × List PayoutRequest :=
  let balance := wallet_balance_intended profile payouts requests
  if amount ≤ 0 then (.invalidAmount, requests)
  else if balance < amount then (.insufficientBalance, requests)
  else (.created, requests ++
    [{ seller_id := profile.sid, amount := amount,
       bank_details := bankSnapshot profile, status := .pending }])

/-- services/payment.py PaymentService.record_transaction.  The source calls
PaymentTransaction.objects.get_or_create(ref=reference, defaults=...), but
PaymentTransaction has a field named reference, not ref (and no provider
field), so Django raises FieldError (cannot resolve keyword) while building
the query, before any row is read or written. -/
def record_transaction (_db : Db) (_oid : Nat) (_reference : String)
    (_amount : ℚ) : Except OrmError Db :=
  .error .unknownFieldKeyword

/-! Concrete fixtures used by witnesses and counterexamples. -/

/-- Settings row with both rates 0, keeping fixture arithmetic transparent. -/
def cfg0 : MarketplaceSetting := ⟨0, 0⟩

/-- Fixture seller: profile pk 1, user pk 9, no commission override. -/
def seller1 : SellerProfile := ⟨1, some 9, none, "GTBank", "0123456789", "Ada"⟩

/-- Fixture item: one unit of product 1 at a stored unit price of 10. -/
def item1 : OrderItem := ⟨some 1, some seller1, 1, 10, 10, 0, 0, 0⟩

/-- Fixture product 1 with stock 5 and price 10. -/
def prodA : Product := ⟨1, "A", 10, 5⟩

/-- Fixture product 1 but sold out. -/
def prodA0 : Product := ⟨1, "A", 10, 0⟩

/-- Fixture product 1 whose price was raised to 20 after checkout. -/
def prodA20 : Product := ⟨1, "A", 20, 5⟩

/-- Fixture pending order of buyer 7 holding item1, stored total 10. -/
def ordPending : Order := ⟨1, some 7, .pending, [item1], 10, 0, none, 0, 10⟩

/-- Fixture order already paid. -/
def ordPaid : Order := ⟨1, some 7, .paid, [item1], 10, 0, none, 0, 10⟩

/-- Fixture pending transaction for ordPending under reference r1. -/
def txPending : PaymentTransaction := ⟨"r1", some 1, 10, .pending⟩

/-- Fixture transaction for ordPending that failed an earlier attempt. -/
def txFailed : PaymentTransaction := ⟨"r1", some 1, 10, .failed⟩

/-- Fixture transaction already marked success. -/
def txSuccess : PaymentTransaction := ⟨"r1", some 1, 10, .success⟩

/-- World where the order is already paid and its transaction succeeded. -/
def dbPaid : Db := ⟨[prodA], [ordPaid], [txSuccess], []⟩

/-- World where verification is still pending and stock suffices. -/
def dbReady : Db := ⟨[prodA], [ordPending], [txPending], []⟩

/-- World like dbReady but the product price moved to 20 after the stored
total of 10 was computed: the stored and recomputed totals disagree. -/
def dbStale : Db := ⟨[prodA20], [ordPending], [txPending], []⟩

/-- World like dbReady but the product is sold out. -/
def dbNoStock : Db := ⟨[prodA0], [ordPending], [txPending], []⟩

/-- World like dbReady but the transaction failed an earlier attempt. -/
def dbRetry : Db := ⟨[prodA], [ordPending], [txFailed], []⟩

/-- Fixture second transaction for order 1 under reference r2 (a retry that
the provider also settled), still pending. -/
def tx2Pending : PaymentTransaction := ⟨"r2", some 1, 10, .pending⟩

/-- World where order 1 is already paid through r1 while the retry r2 is
still pending. -/
def dbTwoTx : Db := ⟨[prodA], [ordPaid], [txSuccess, tx2Pending], []⟩

/-- Well-shaped webhook envelope referring to r1. -/
def evReady : Json :=
  .obj [("event", .str "charge.success"), ("data", .obj [("reference", .str "r1")])]

/-- Well-shaped webhook envelope referring to the retry r2. -/
def evTwo : Json :=
  .obj [("event", .str "charge.success"), ("data", .obj [("reference", .str "r2")])]

/-- Signature-valid JSON that is a list, not an object: json.loads accepts
it and event.get then raises. -/
def evList : Json := .arr [.num 1, .num 2]

/-- Envelope whose reference is the number 5: truthy but without strip. -/
def evBadRef : Json :=
  .obj [("event", .str "charge.success"), ("data", .obj [("reference", .num 5)])]

/-- Envelope whose data is a truthy list: it has no get. -/
def evBadData : Json :=
  .obj [("event", .str "charge.success"), ("data", .arr [.num 1])]

/-- Fixture payout rows of user 9: one settled order worth 10000. -/
def payouts1 : List SellerPayout := [⟨1, 9, 10000, 0, 0, 10000⟩]

/-- Fixture withdrawal rows of profile 1: one paid request of 4000. -/
def requests1 : List PayoutRequest := [⟨1, 4000, "snap", .paid⟩]

/-! Helper lemmas. -/

/-- Projection fact: recalculation keeps the order pk. -/
@[simp]
lemma recalc_order_amounts_oid (config : MarketplaceSetting)
    (ps : List Product) (o : Order) :
    (recalc_order_amounts config ps o).oid = o.oid := rfl

/-- Projection fact: recalculation keeps the order status. -/
@[simp]
lemma recalc_order_amounts_status (config : MarketplaceSetting)
    (ps : List Product) (o : Order) :
    (recalc_order_amounts config ps o).status = o.status := rfl

/-- Replacing the row with a given pk makes the subsequent lookup of that pk
return the replacement, provided some row with the pk was present. -/
lemma find_update_list (l : List Order) (oid : Nat) (o₂ : Order)
    (h2 : o₂.oid = oid) (h : (l.find? (fun r => r.oid == oid)).isSome) :
    (l.map (fun r => if r.oid == o₂.oid then o₂ else r)).find?
      (fun r => r.oid == oid) = some o₂ := by
  induction l with
  | nil => simp at h
  | cons a t ih =>
    rw [List.map_cons]
    by_cases ha : a.oid = oid
    · have hcond : (a.oid == o₂.oid) = true := by
        simp [h2, ha]
      rw [if_pos hcond]
      exact List.find?_cons_of_pos _ (by simp [h2])
    · have hcond : (a.oid == o₂.oid) = false := by
        rw [h2]
        exact beq_false_of_ne ha
      rw [if_neg (by rw [hcond]; exact Bool.false_ne_true)]
      rw [List.find?_cons_of_neg _ (by simp [ha])]
      rw [List.find?_cons_of_neg _ (by simp [ha])] at h
      exact ih h

/-- Db level version of find_update_list. -/
lemma findOrder_updateOrder (db : Db) (oid : Nat) (o₂ : Order)
    (h2 : o₂.oid = oid) (h : (findOrder db oid).isSome) :
    findOrder (db.updateOrder o₂) oid = some o₂ := by
  unfold findOrder Db.updateOrder
  exact find_update_list db.orders oid o₂ h2 h

/-- Idempotent short circuit of _fulfill_paid_order: an order already paid
or later makes the call a no-op success. -/
lemma fulfill_paid_order_noop (config : MarketplaceSetting) (o : Order)
    (db : Db) (h : o.status.paidOrLater = true) :
    fulfill_paid_order config o db = .ok db := by
  simp [fulfill_paid_order, h]

/-! Claim theorems. -/

/-- Presence of the order row survives _create_or_update_seller_payouts, and
the stored row keeps the status of the order being settled (only items and
payout rows are rewritten). -/
lemma findOrder_create_or_update_status (config : MarketplaceSetting)
    (o : Order) (db : Db) (h : (findOrder db o.oid).isSome) :
    ∃ o₃, findOrder (create_or_update_seller_payouts config o db) o.oid = some o₃ ∧
      o₃.status = o.status := by
  unfold create_or_update_seller_payouts
  exact ⟨_, findOrder_updateOrder _ o.oid _ rfl h, rfl⟩

/-- A successful non-short-circuit run of _fulfill_paid_order stores the
order row with status paid. -/
lemma fulfill_paid_order_marks_paid (config : MarketplaceSetting) (o : Order)
    (db db₂ : Db) (hrow : findOrder db o.oid = some o)
    (hp : o.status.paidOrLater = false)
    (hf : fulfill_paid_order config o db = .ok db₂) :
    ∃ o₃, findOrder db₂ o.oid = some o₃ ∧ o₃.status = .paid := by
  simp only [fulfill_paid_order, hp, Bool.false_eq_true, if_false] at hf
  split at hf
  · exact absurd hf (by simp)
  · rename_i ps₂ hres
    have hcc := Except.ok.inj hf
    have h1 : findOrder (db.updateOrder (recalc_order_amounts config db.products o)) o.oid
        = some (recalc_order_amounts config db.products o) :=
      findOrder_updateOrder db o.oid _ (recalc_order_amounts_oid config db.products o)
        (by rw [hrow]; rfl)
    have h2 : (findOrder
        { db.updateOrder (recalc_order_amounts config db.products o) with
            products := ps₂ } o.oid).isSome := by
      have hsame : findOrder
          { db.updateOrder (recalc_order_amounts config db.products o) with
              products := ps₂ } o.oid
          = findOrder (db.updateOrder (recalc_order_amounts config db.products o)) o.oid := rfl
      rw [hsame, h1]; rfl
    have h3 : findOrder
        (Db.updateOrder
          { db.updateOrder (recalc_order_amounts config db.products o) with
              products := ps₂ }
          { recalc_order_amounts config db.products o with status := .paid }) o.oid
        = some { recalc_order_amounts config db.products o with status := .paid } :=
      findOrder_updateOrder _ o.oid _ (recalc_order_amounts_oid config db.products o) h2
    have h4 : (findOrder
        (Db.updateOrder
          { db.updateOrder (recalc_order_amounts config db.products o) with
              products := ps₂ }
          { recalc_order_amounts config db.products o with status := .paid })
        ({ recalc_order_amounts config db.products o with
            status := OrderStatus.paid } : Order).oid).isSome := by
      have hoid : ({ recalc_order_amounts config db.products o with
          status := OrderStatus.paid } : Order).oid = o.oid := rfl
      rw [hoid, h3]; rfl
    obtain ⟨o₃, hof, hstat⟩ := findOrder_create_or_update_status config
      { recalc_order_amounts config db.products o with status := .paid }
      (Db.updateOrder
        { db.updateOrder (recalc_order_amounts config db.products o) with
            products := ps₂ }
        { recalc_order_amounts config db.products o with status := .paid })
      h4
    rw [hcc] at hof
    exact ⟨o₃, hof, hstat⟩

/-- C1.  Idempotent fulfillment: when the order status is already paid,
processing, shipped or completed, _fulfill_paid_order is a no-op success
(the whole database, hence stock levels, SellerPayout totals and the order
status, is unchanged); and after any successful call, calling it again on
the stored order is again a no-op success, so fulfilling twice with the
same confirmed payment yields the same state as fulfilling once. -/
theorem fulfill_paid_order_idempotent (config : MarketplaceSetting)
    (o : Order) (db : Db) (hrow : findOrder db o.oid = some o) :
    (o.status.paidOrLater = true → fulfill_paid_order config o db = .ok db) ∧
    (∀ db₂ o₂, fulfill_paid_order config o db = .ok db₂ →
      findOrder db₂ o.oid = some o₂ →
      fulfill_paid_order config o₂ db₂ = .ok db₂ ∧
      (o.status.paidOrLater = true → db₂ = db)) := by
  refine ⟨fun h => fulfill_paid_order_noop config o db h, ?_⟩
  intro db₂ o₂ hf hfind
  cases hpb : o.status.paidOrLater with
  | true =>
    rw [fulfill_paid_order_noop config o db hpb] at hf
    have hdb : db = db₂ := by injection hf
    subst hdb
    rw [hrow] at hfind
    have ho : o = o₂ := by injection hfind
    subst ho
    exact ⟨fulfill_paid_order_noop config o db hpb, fun _ => rfl⟩
  | false =>
    obtain ⟨o₃, hof, hstat⟩ :=
      fulfill_paid_order_marks_paid config o db db₂ hrow hpb hf
    rw [hof] at hfind
    have ho : o₃ = o₂ := by injection hfind
    subst ho
    refine ⟨fulfill_paid_order_noop config o₃ db₂ (by rw [hstat]; rfl), ?_⟩
    intro h
    exact absurd h (by simp)

/-- Witness for C1 at a concrete paid order. -/
theorem fulfill_paid_order_idempotent_witness :
    fulfill_paid_order cfg0 ordPaid dbPaid = .ok dbPaid :=
  (fulfill_paid_order_idempotent cfg0 ordPaid dbPaid rfl).1 rfl

/-- C2 (amended).  The amount guard of both verify endpoints compares the
gateway amount against the kobo value of the order total as stored at
verification time (not the recomputed total), and only when the gateway
reported an amount and the stored expected value is nonzero; under those
conditions any mismatch marks the transaction failed, answers the
amount-mismatch response, and leaves every order row (hence the order
status) unchanged. -/
theorem verify_amount_mismatch_marks_failed (config : MarketplaceSetting)
    (requesterId : Nat) (reference : String) (a : ℤ) (db : Db)
    (payment : PaymentTransaction) (o : Order)
    (h0 : reference ≠ "")
    (hfindt : findTransaction db reference = some payment)
    (hord : payment.order_id.bind (findOrder db) = some o)
    (hbuyer : o.buyer_id = some requesterId)
    (hnpay : payment.status ≠ .success)
    (hnord : o.status.paidOrLater = false)
    (hexp : toKobo o.total ≠ 0)
    (hne : a ≠ toKobo o.total) :
    paystack_inline_verify config requesterId reference (.ok (some a)) db
      = (.amountMismatch, db.updateTransaction { payment with status := .failed }) ∧
    verify_payment_view config reference (.ok (some a)) db
      = (.redirectCheckoutAmountMismatch,
         db.updateTransaction { payment with status := .failed }) ∧
    (db.updateTransaction { payment with status := .failed }).orders = db.orders := by
  refine ⟨?_, ?_, rfl⟩
  · simp [paystack_inline_verify, h0, hfindt, hord, hbuyer, hnpay, hnord, hexp, hne]
  · simp [verify_payment_view, h0, hfindt, hord, hnpay, hnord, hexp, hne]

/-- Witness for C2 (amended): in dbReady a gateway amount of 999 kobo
against the stored total of 10.00 (1000 kobo) is rejected on both paths. -/
theorem verify_amount_mismatch_marks_failed_witness :
    paystack_inline_verify cfg0 7 "r1" (.ok (some 999)) dbReady
      = (.amountMismatch, dbReady.updateTransaction { txPending with status := .failed }) ∧
    verify_payment_view cfg0 "r1" (.ok (some 999)) dbReady
      = (.redirectCheckoutAmountMismatch,
         dbReady.updateTransaction { txPending with status := .failed }) ∧
    (dbReady.updateTransaction { txPending with status := .failed }).orders
      = dbReady.orders := by
  have hk : toKobo (ordPending.total) = 1000 := by
    norm_num [ordPending, toKobo, roundHalfEven]
  exact verify_amount_mismatch_marks_failed cfg0 7 "r1" 999 dbReady txPending
    ordPending (by simp) rfl rfl rfl (by simp [txPending]) rfl
    (by rw [hk]; norm_num) (by rw [hk]; norm_num)

/-- Counterexample to C2 as stated: in dbStale the stored total is 10.00 but
the recomputed total is 20.00; a gateway confirmation of 1000 kobo differs
from the recomputed total (2000 kobo) by 1000 smallest units, yet the inline
verify endpoint fulfills the order and advances it to paid instead of
failing with an amount mismatch. -/
theorem verify_accepts_stale_total_cex :
    toKobo ((recalc_order_amounts cfg0 dbStale.products ordPending).total) = 2000 ∧
    (1000 : ℤ) ≠ 2000 ∧
    (paystack_inline_verify cfg0 7 "r1" (.ok (some 1000)) dbStale).1 = .okRedirect ∧
    ((findOrder (paystack_inline_verify cfg0 7 "r1" (.ok (some 1000)) dbStale).2 1).map
      (fun o => o.status)) = some .paid := by
  have hk : toKobo (10 : ℚ) = 1000 := by
    norm_num [toKobo, roundHalfEven]
  refine ⟨?_, by norm_num, ?_, ?_⟩
  · simp [recalc_order_amounts, recalcItem, dbStale, ordPending, item1, prodA20,
      findProduct, List.find?, cfg0]
    norm_num [toKobo, roundHalfEven]
  · simp [paystack_inline_verify, dbStale, findTransaction, List.find?, txPending,
      ordPending, findOrder, hk, verifySettle, fulfill_paid_order, OrderStatus.paidOrLater,
      recalc_order_amounts, recalcItem, reserve_stock_or_fail, reserve_stock,
      decrementStock, findProduct, prodA20, item1, seller1,
      create_or_update_seller_payouts, accruePayout, calculate_line,
      Db.updateTransaction, Db.updateOrder, cfg0]
  · simp [paystack_inline_verify, dbStale, findTransaction, List.find?, txPending,
      ordPending, findOrder, hk, verifySettle, fulfill_paid_order, OrderStatus.paidOrLater,
      recalc_order_amounts, recalcItem, reserve_stock_or_fail, reserve_stock,
      decrementStock, findProduct, prodA20, item1, seller1,
      create_or_update_seller_payouts, accruePayout, calculate_line,
      Db.updateTransaction, Db.updateOrder, cfg0]

/-- Decrementing one product keeps every lookup resolvable and can only
shrink the stock the lookup returns. -/
lemma findProduct_decrementStock_mono (pid pid' q' : Nat) :
    ∀ (ps : List Product) (p : Product),
      findProduct ps pid = some p →
      ∃ p₂, findProduct (decrementStock ps pid' q') pid = some p₂ ∧
        p₂.stock ≤ p.stock := by
  intro ps
  induction ps with
  | nil =>
    intro p h
    simp [findProduct] at h
  | cons a t ih =>
    intro p h
    have hhead : (((if a.pid == pid' then { a with stock := a.stock - q' } else a) :
        Product).pid == pid) = (a.pid == pid) := by
      by_cases hb : a.pid = pid'
      · simp [hb]
      · simp [hb]
    by_cases hp : a.pid = pid
    · have hpb : (a.pid == pid) = true := by simp [hp]
      have hpa : p = a := by
        simp only [findProduct, List.find?, hpb] at h
        exact (Option.some.inj h).symm
      refine ⟨(if a.pid == pid' then { a with stock := a.stock - q' } else a), ?_, ?_⟩
      · simp only [findProduct, decrementStock, List.map_cons, List.find?, hhead, hpb]
      · subst hpa
        by_cases hb : p.pid = pid'
        · simp [hb, Nat.sub_le]
        · simp [hb]
    · have hpb : (a.pid == pid) = false := by simp [hp]
      have ht : findProduct t pid = some p := by
        simp only [findProduct, List.find?, hpb] at h
        exact h
      obtain ⟨p₂, h₂, hle⟩ := ih p ht
      refine ⟨p₂, ?_, hle⟩
      simp only [findProduct, decrementStock, List.map_cons, List.find?, hhead, hpb]
      simpa only [findProduct, decrementStock] using h₂

/-- When some requested line exceeds the stock of its (still existing)
product, the reservation loop necessarily raises: stocks only shrink while
the loop walks earlier lines, so the offending line cannot pass its check,
and any earlier failure also raises. -/
lemma reserve_stock_fails_of_insufficient :
    ∀ (reqs : List ItemRequest) (ps : List Product) (req : ItemRequest) (p : Product),
      req ∈ reqs → findProduct ps req.pid = some p → p.stock < req.qty →
      ∃ e, reserve_stock ps reqs = .error e := by
  intro reqs
  induction reqs with
  | nil =>
    intro ps req p hmem
    simp at hmem
  | cons r rest ih =>
    intro ps req p hmem hfind hlt
    rcases List.mem_cons.mp hmem with hreq | hmem₂
    · subst hreq
      simp only [reserve_stock, hfind, if_pos hlt]
      exact ⟨_, rfl⟩
    · simp only [reserve_stock]
      cases hfr : findProduct ps r.pid with
      | none => exact ⟨_, rfl⟩
      | some pr =>
        show ∃ e, (if pr.stock < r.qty then
            Except.error (InvError.insufficientStock pr.name pr.stock r.qty)
          else reserve_stock (decrementStock ps r.pid r.qty) rest) = Except.error e
        by_cases hlt₂ : pr.stock < r.qty
        · rw [if_pos hlt₂]
          exact ⟨_, rfl⟩
        · rw [if_neg hlt₂]
          obtain ⟨p₂, hf₂, hle⟩ :=
            findProduct_decrementStock_mono req.pid r.pid r.qty ps p hfind
          exact ih (decrementStock ps r.pid r.qty) req p₂ hmem₂ hf₂
            (lt_of_le_of_lt hle hlt)

/-- C3.  Inventory reservation is all-or-nothing: whenever any line of the
batch requests more than the available stock of its product, reserve_stock
raises a ValidationError (so the atomic decorator rolls every decrement
back and the caller keeps its old stock levels), and the error names the
offending product; in particular for products A (stock 2) and B (stock 0)
with requested quantities (1, 1) the batch fails with the error naming B,
available 0, requested 1 — no decremented product list is returned, so the
stock of A remains 2. -/
theorem reserve_stock_all_or_nothing :
    (∀ (ps : List Product) (reqs : List ItemRequest) (req : ItemRequest) (p : Product),
      req ∈ reqs → findProduct ps req.pid = some p → p.stock < req.qty →
      ∃ e, reserve_stock ps reqs = .error e) ∧
    reserve_stock [⟨1, "A", 10, 2⟩, ⟨2, "B", 5, 0⟩] [⟨1, "A", 1⟩, ⟨2, "B", 1⟩]
      = .error (.insufficientStock "B" 0 1) := by
  refine ⟨fun ps reqs req p hmem hfind hlt =>
    reserve_stock_fails_of_insufficient reqs ps req p hmem hfind hlt, ?_⟩
  simp [reserve_stock, findProduct, List.find?, decrementStock]

/-- Witness for C3: the universally quantified part applied to the concrete
two-product batch. -/
theorem reserve_stock_all_or_nothing_witness :
    ∃ e, reserve_stock [⟨1, "A", 10, 2⟩, ⟨2, "B", 5, 0⟩] [⟨1, "A", 1⟩, ⟨2, "B", 1⟩]
      = .error e :=
  reserve_stock_all_or_nothing.1 _ _ ⟨2, "B", 1⟩ ⟨2, "B", 5, 0⟩
    (by simp) (by simp [findProduct, List.find?]) (by decide)

/-- C4 (amended).  When inventory reservation makes fulfillment raise, the
enclosing transaction.atomic block of both verify endpoints rolls back the
provisional success write on the PaymentTransaction together with every
fulfillment effect: the whole database is returned unchanged (order not
advanced, stock unchanged, the transaction keeps its prior status), and the
failure is surfaced as the fulfilment-failed response of the endpoint. -/
theorem insufficient_stock_rolls_back (config : MarketplaceSetting)
    (requesterId : Nat) (reference : String) (a : ℤ) (db : Db)
    (payment : PaymentTransaction) (o : Order) (e : InvError)
    (h0 : reference ≠ "")
    (hfindt : findTransaction db reference = some payment)
    (hord : payment.order_id.bind (findOrder db) = some o)
    (hbuyer : o.buyer_id = some requesterId)
    (hnpay : payment.status ≠ .success)
    (hnord : o.status.paidOrLater = false)
    (hguard : ¬ (toKobo o.total ≠ 0 ∧ a ≠ toKobo o.total))
    (herr : fulfill_paid_order config o
      (db.updateTransaction { payment with status := .success }) = .error e) :
    paystack_inline_verify config requesterId reference (.ok (some a)) db
      = (.fulfillmentFailed, db) ∧
    verify_payment_view config reference (.ok (some a)) db
      = (.redirectOrderSuccessWithWarning, db) := by
  constructor
  · simp [paystack_inline_verify, verifySettle, h0, hfindt, hord, hbuyer, hnpay,
      hnord, hguard, herr]
  · simp [verify_payment_view, verifySettle, h0, hfindt, hord, hnpay,
      hnord, hguard, herr]

/-- Witness for C4 (amended) in dbNoStock: the matching 1000 kobo payment
passes the amount guard, reservation fails on the sold-out product, and both
endpoints return the rollback state. -/
theorem insufficient_stock_rolls_back_witness :
    paystack_inline_verify cfg0 7 "r1" (.ok (some 1000)) dbNoStock
      = (.fulfillmentFailed, dbNoStock) ∧
    verify_payment_view cfg0 "r1" (.ok (some 1000)) dbNoStock
      = (.redirectOrderSuccessWithWarning, dbNoStock) := by
  have hk : toKobo (10 : ℚ) = 1000 := by
    norm_num [toKobo, roundHalfEven]
  refine insufficient_stock_rolls_back cfg0 7 "r1" 1000 dbNoStock txPending
    ordPending (.insufficientStock "A" 0 1) (by simp) rfl rfl rfl
    (by simp [txPending]) rfl ?_ ?_
  · simp [ordPending, hk]
  · simp [fulfill_paid_order, ordPending, dbNoStock, txPending, item1, prodA0,
      seller1, OrderStatus.paidOrLater, recalc_order_amounts, recalcItem,
      reserve_stock_or_fail, reserve_stock, decrementStock, findProduct,
      List.find?, Db.updateTransaction, Db.updateOrder, cfg0]

/-- Counterexample to C4 as stated: in dbNoStock fulfillment fails with
InsufficientStock, and afterwards the PaymentTransaction status is pending,
not the claimed success — the success write was rolled back with the rest
of the atomic block. -/
theorem insufficient_stock_payment_not_success_cex :
    (paystack_inline_verify cfg0 7 "r1" (.ok (some 1000)) dbNoStock).1
      = .fulfillmentFailed ∧
    ((findTransaction
        (paystack_inline_verify cfg0 7 "r1" (.ok (some 1000)) dbNoStock).2 "r1").map
      (fun t => t.status)) = some .pending ∧
    ((findOrder
        (paystack_inline_verify cfg0 7 "r1" (.ok (some 1000)) dbNoStock).2 1).map
      (fun o => o.status)) = some .pending := by
  have hk : toKobo (10 : ℚ) = 1000 := by
    norm_num [toKobo, roundHalfEven]
  have hrun : paystack_inline_verify cfg0 7 "r1" (.ok (some 1000)) dbNoStock
      = (.fulfillmentFailed, dbNoStock) := by
    simp [paystack_inline_verify, verifySettle, fulfill_paid_order, dbNoStock,
      findTransaction, findOrder, List.find?, txPending, ordPending, item1,
      prodA0, seller1, hk, OrderStatus.paidOrLater, recalc_order_amounts,
      recalcItem, reserve_stock_or_fail, reserve_stock, decrementStock,
      findProduct, Db.updateTransaction, Db.updateOrder, cfg0]
  rw [hrun]
  refine ⟨rfl, ?_, ?_⟩
  · simp [dbNoStock, findTransaction, List.find?, txPending]
  · simp [dbNoStock, findOrder, List.find?, ordPending]

/-- C5 (amended).  A transaction that has reached success is terminal for
every live status writer: both verify endpoints short-circuit and return the
database unchanged, the webhook only writes when the matched transaction is
not success, and record_transaction never writes anything because its
queryset keyword does not exist.  At-most-one-success per order is however
not enforced: in dbTwoTx, where order 1 is already paid through r1, a
webhook event for the pending retry r2 marks r2 success as well (fulfillment
short-circuits, the status write stands), leaving two success transactions
for one order.  (The pending-only source part of the original claim is
refuted separately: failed transactions are re-verified to success.) -/
theorem success_status_terminal :
    (∀ (config : MarketplaceSetting) (requesterId : Nat) (reference : String)
      (gw : GatewayVerify) (db : Db) (payment : PaymentTransaction),
      findTransaction db reference = some payment → payment.status = .success →
      (paystack_inline_verify config requesterId reference gw db).2 = db) ∧
    (∀ (config : MarketplaceSetting) (reference : String) (gw : GatewayVerify)
      (db : Db) (payment : PaymentTransaction),
      findTransaction db reference = some payment → payment.status = .success →
      (verify_payment_view config reference gw db).2 = db) ∧
    (∀ (hm : String → String → String) (parse : String → Option Json)
      (config : MarketplaceSetting) (secret : String) (signature : Option String)
      (body : String) (db : Db) (ev : Json) (r : String)
      (payment : PaymentTransaction),
      parse body = some ev → webhook_pay_ref ev = .ok (some r) →
      findTransaction db r = some payment → payment.status = .success →
      (paystack_webhook hm parse config secret signature body db).2 = db) ∧
    (∀ (db : Db) (oid : Nat) (reference : String) (amount : ℚ),
      record_transaction db oid reference amount = .error .unknownFieldKeyword) ∧
    (((findTransaction
        (paystack_webhook (fun s b => s ++ b) (fun _ => some evTwo) cfg0 "s"
          (some ((fun s b => s ++ b) "s" "x")) "x" dbTwoTx).2 "r1").map
        (fun t => t.status)) = some .success ∧
     ((findTransaction
        (paystack_webhook (fun s b => s ++ b) (fun _ => some evTwo) cfg0 "s"
          (some ((fun s b => s ++ b) "s" "x")) "x" dbTwoTx).2 "r2").map
        (fun t => t.status)) = some .success) := by
  refine ⟨?_, ?_, ?_, fun _ _ _ _ => rfl, ?_⟩
  · intro config requesterId reference gw db payment hfind hsucc
    by_cases h0 : reference = ""
    · simp [paystack_inline_verify, h0]
    · rcases hbind : payment.order_id.bind (findOrder db) with _ | o
      · simp [paystack_inline_verify, h0, hfind, hbind]
      · simp [paystack_inline_verify, h0, hfind, hbind, hsucc, apply_ite]
  · intro config reference gw db payment hfind hsucc
    by_cases h0 : reference = ""
    · simp [verify_payment_view, h0]
    · rcases hbind : payment.order_id.bind (findOrder db) with _ | o
      · simp [verify_payment_view, h0, hfind, hbind]
      · simp [verify_payment_view, h0, hfind, hbind, hsucc]
  · intro hm parse config secret signature body db ev r payment hparse href
      hfind hsucc
    by_cases h1 : secret = "" ∨ signature.getD "" = ""
    · simp [paystack_webhook, h1]
    · by_cases h2 : hm secret body = signature.getD ""
      · by_cases hr : r = ""
        · subst hr
          simp [paystack_webhook, webhook_event_stage, h1, h2, hparse, href]
        · rcases hbind : payment.order_id.bind (findOrder db) with _ | o
          · simp [paystack_webhook, webhook_event_stage, h1, h2, hparse, href,
              hr, hfind, hbind]
          · simp [paystack_webhook, webhook_event_stage, h1, h2, hparse, href,
              hr, hfind, hbind, hsucc]
      · simp [paystack_webhook, h1, h2]
  · have hstrip : pyStrip "r2" = "r2" := by decide
    constructor
    · simp [paystack_webhook, webhook_event_stage, webhook_pay_ref, pyGet,
        Json.truthy, hstrip, evTwo, List.lookup, verifySettle,
        fulfill_paid_order, dbTwoTx, findTransaction, findOrder, List.find?,
        txSuccess, tx2Pending, ordPaid, OrderStatus.paidOrLater,
        Db.updateTransaction, cfg0]
    · simp [paystack_webhook, webhook_event_stage, webhook_pay_ref, pyGet,
        Json.truthy, hstrip, evTwo, List.lookup, verifySettle,
        fulfill_paid_order, dbTwoTx, findTransaction, findOrder, List.find?,
        txSuccess, tx2Pending, ordPaid, OrderStatus.paidOrLater,
        Db.updateTransaction, cfg0]

/-- Witness for C5 (amended): in dbPaid the success transaction r1 is left
untouched by a repeated inline verify. -/
theorem success_status_terminal_witness :
    (paystack_inline_verify cfg0 7 "r1" .fail dbPaid).2 = dbPaid :=
  success_status_terminal.1 cfg0 7 "r1" .fail dbPaid txSuccess rfl rfl

/-- Counterexample to C5 as stated: the transaction of dbRetry is in status
failed, and a retried inline verification with a matching gateway amount
moves it failed to success — a transition the claimed state machine
(pending to success or pending to failed only) forbids. -/
theorem failed_to_success_transition_cex :
    ((findTransaction dbRetry "r1").map (fun t => t.status)) = some .failed ∧
    ((findTransaction
        (paystack_inline_verify cfg0 7 "r1" (.ok (some 1000)) dbRetry).2 "r1").map
      (fun t => t.status)) = some .success := by
  have hk : toKobo (10 : ℚ) = 1000 := by
    norm_num [toKobo, roundHalfEven]
  constructor
  · simp [dbRetry, findTransaction, List.find?, txFailed]
  · simp [paystack_inline_verify, verifySettle, fulfill_paid_order, dbRetry,
      findTransaction, findOrder, List.find?, txFailed, ordPending, item1,
      prodA, seller1, hk, OrderStatus.paidOrLater, recalc_order_amounts,
      recalcItem, reserve_stock_or_fail, reserve_stock, decrementStock,
      findProduct, Db.updateTransaction, Db.updateOrder, cfg0,
      create_or_update_seller_payouts, accruePayout, calculate_line]

/-- C8.  Line-item ledger arithmetic: for any configuration, commission rate
argument and item, calculate_line computes subtotal = unit_price * quantity,
vat and commission as the matching percentages of that subtotal with the
rate the argument when given (the callers pass the seller override when set,
else the global default) and the configured rate otherwise, and
seller_earnings = subtotal - vat - commission; the equalities are exact over
the rational model of Decimal. -/
theorem calculate_line_ledger_equations (config : MarketplaceSetting)
    (rate : Option ℚ) (it : OrderItem) :
    (calculate_line config rate it).subtotal = it.unit_price * (it.quantity : ℚ) ∧
    (calculate_line config rate it).vat
      = it.unit_price * (it.quantity : ℚ) * config.vat_rate / 100 ∧
    (calculate_line config rate it).commission
      = it.unit_price * (it.quantity : ℚ) * (rate.getD config.commission_rate) / 100 ∧
    (calculate_line config rate it).seller_earnings
      = (calculate_line config rate it).subtotal
        - (calculate_line config rate it).vat
        - (calculate_line config rate it).commission :=
  ⟨rfl, rfl, rfl, rfl⟩

/-- C9.  Webhook signature gate: with a missing or empty secret, a missing
or empty signature header, or a recomputed digest over the raw body that
differs from the header, the webhook answers an authorization failure, the
database is unchanged, and the outcome does not depend on the JSON parser at
all (the body is never parsed).  The digest comparison in the source is the
constant-time hmac.compare_digest, modelled functionally as string
equality. -/
theorem webhook_signature_gate (hm : String → String → String)
    (parse₁ parse₂ : String → Option Json) (config : MarketplaceSetting)
    (secret : String) (signature : Option String) (body : String) (db : Db)
    (h : secret = "" ∨ signature.getD "" = "" ∨ hm secret body ≠ signature.getD "") :
    ((paystack_webhook hm parse₁ config secret signature body db).1 = .unauthorized ∨
     (paystack_webhook hm parse₁ config secret signature body db).1 = .invalidSignature) ∧
    (paystack_webhook hm parse₁ config secret signature body db).2 = db ∧
    paystack_webhook hm parse₁ config secret signature body db
      = paystack_webhook hm parse₂ config secret signature body db := by
  rcases h with h | h | h
  · simp [paystack_webhook, h]
  · simp [paystack_webhook, h]
  · by_cases h1 : secret = "" ∨ signature.getD "" = ""
    · simp [paystack_webhook, h1]
    · simp [paystack_webhook, h1, h]

/-- Witness for C9: a header that does not match the recomputed digest is
rejected identically under two different parsers. -/
theorem webhook_signature_gate_witness :
    ((paystack_webhook (fun s b => s ++ b) (fun _ => none) cfg0 "s"
        (some "bb") "x" dbPaid).1 = .unauthorized ∨
     (paystack_webhook (fun s b => s ++ b) (fun _ => none) cfg0 "s"
        (some "bb") "x" dbPaid).1 = .invalidSignature) ∧
    (paystack_webhook (fun s b => s ++ b) (fun _ => none) cfg0 "s"
        (some "bb") "x" dbPaid).2 = dbPaid ∧
    paystack_webhook (fun s b => s ++ b) (fun _ => none) cfg0 "s"
        (some "bb") "x" dbPaid
      = paystack_webhook (fun s b => s ++ b)
          (fun _ => some evReady) cfg0 "s" (some "bb") "x" dbPaid :=
  webhook_signature_gate (fun s b => s ++ b) (fun _ => none)
    (fun _ => some evReady) cfg0 "s" (some "bb") "x" dbPaid
    (Or.inr (Or.inr (by simp)))

/-- Every non-raising run of the webhook body handling answers the 200
status-ok response. -/
lemma webhook_event_stage_ok_resp (config : MarketplaceSetting) (ev : Json)
    (db : Db) (out : WebhookResp × Db)
    (h : webhook_event_stage config ev db = .ok out) : out.1 = .okJson := by
  unfold webhook_event_stage at h
  repeat' split at h
  all_goals first
    | exact Except.noConfusion h
    | rw [← Except.ok.inj h]

/-- C10 (amended).  After a correct signature (the hex digest of a real
HMAC is a nonempty string, hence the nonemptiness hypothesis) and a body
json.loads accepts, the webhook answers the 200 status-ok response exactly
when the envelope extraction of lines 998-1003 does not raise — covering
unknown event types, unmatched references, transactions already in success,
and fulfillment exceptions (rolled back and swallowed); when the parsed
JSON is not object-shaped where the extraction needs it (non-dict top
level, truthy non-dict data, truthy non-string reference) the extraction
raises an uncaught AttributeError and the handler answers HTTP 500 with the
database unchanged. -/
theorem webhook_ok_or_500_after_valid_signature
    (hm : String → String → String) (parse : String → Option Json)
    (config : MarketplaceSetting) (secret : String) (signature : Option String)
    (body : String) (db : Db) (ev : Json)
    (h1 : secret ≠ "") (h2 : signature = some (hm secret body))
    (h3 : hm secret body ≠ "") (hp : parse body = some ev) :
    (∀ out, webhook_event_stage config ev db = .ok out →
      paystack_webhook hm parse config secret signature body db = out ∧
      out.1 = .okJson) ∧
    (∀ e, webhook_event_stage config ev db = .error e →
      paystack_webhook hm parse config secret signature body db
        = (.serverError, db)) := by
  subst h2
  constructor
  · intro out hout
    exact ⟨by simp [paystack_webhook, h1, h3, hp, hout],
      webhook_event_stage_ok_resp config ev db out hout⟩
  · intro e he
    simp [paystack_webhook, h1, h3, hp, he]

/-- Witness for C10 (amended), both sides: a well-shaped envelope over the
sold-out world gets ok with the fulfillment exception swallowed, and the
list-shaped body gets the 500 with the database untouched. -/
theorem webhook_ok_or_500_after_valid_signature_witness :
    paystack_webhook (fun s b => s ++ b) (fun _ => some evReady) cfg0 "s"
      (some ((fun s b => s ++ b) "s" "x")) "x" dbNoStock
      = (.okJson, dbNoStock) ∧
    paystack_webhook (fun s b => s ++ b) (fun _ => some evList) cfg0 "s"
      (some ((fun s b => s ++ b) "s" "x")) "x" dbNoStock
      = (.serverError, dbNoStock) := by
  have hstrip : pyStrip "r1" = "r1" := by decide
  have hstage : webhook_event_stage cfg0 evReady dbNoStock
      = .ok (.okJson, dbNoStock) := by
    simp [webhook_event_stage, webhook_pay_ref, pyGet, Json.truthy, hstrip,
      evReady, List.lookup, verifySettle, fulfill_paid_order, dbNoStock,
      findTransaction, findOrder, List.find?, txPending, ordPending, item1,
      prodA0, seller1, OrderStatus.paidOrLater, recalc_order_amounts,
      recalcItem, reserve_stock_or_fail, reserve_stock, decrementStock,
      findProduct, Db.updateTransaction, Db.updateOrder, cfg0]
  have hcrash : webhook_event_stage cfg0 evList dbNoStock
      = .error .attributeError := by
    simp [webhook_event_stage, webhook_pay_ref, pyGet, evList]
  exact ⟨((webhook_ok_or_500_after_valid_signature (fun s b => s ++ b)
      (fun _ => some evReady) cfg0 "s" _ "x" dbNoStock evReady (by simp) rfl
      (by simp) rfl).1 (.okJson, dbNoStock) hstage).1,
    (webhook_ok_or_500_after_valid_signature (fun s b => s ++ b)
      (fun _ => some evList) cfg0 "s" _ "x" dbNoStock evList (by simp) rfl
      (by simp) rfl).2 .attributeError hcrash⟩

/-- Counterexample to C10 as stated: three signature-valid bodies that
json.loads accepts — the list [1, 2], an envelope whose data is a list, and
an envelope whose reference is the number 5 — make the handler raise an
uncaught AttributeError at views.py 998-1004 and answer HTTP 500, not the
claimed 200 status-ok. -/
theorem webhook_crashes_on_nonenvelope_json_cex :
    paystack_webhook (fun s b => s ++ b) (fun _ => some evList) cfg0 "s"
      (some ((fun s b => s ++ b) "s" "[1,2]")) "[1,2]" dbPaid
      = (.serverError, dbPaid) ∧
    paystack_webhook (fun s b => s ++ b) (fun _ => some evBadData) cfg0 "s"
      (some ((fun s b => s ++ b) "s" "x")) "x" dbPaid
      = (.serverError, dbPaid) ∧
    paystack_webhook (fun s b => s ++ b) (fun _ => some evBadRef) cfg0 "s"
      (some ((fun s b => s ++ b) "s" "x")) "x" dbPaid
      = (.serverError, dbPaid) ∧
    WebhookResp.serverError ≠ WebhookResp.okJson := by
  refine ⟨?_, ?_, ?_, by simp⟩
  · simp [paystack_webhook, webhook_event_stage, webhook_pay_ref, pyGet, evList]
  · simp [paystack_webhook, webhook_event_stage, webhook_pay_ref, pyGet,
      Json.truthy, evBadData, List.lookup]
  · simp [paystack_webhook, webhook_event_stage, webhook_pay_ref, pyGet,
      Json.truthy, evBadRef, List.lookup]

/-- C6 (code_bug).  The wallet_balance property always raises: its
SellerPayout queryset filters a CustomUser foreign key with a SellerProfile
instance, which Django rejects with ValueError before anything is summed;
the docstring/spec formula, evaluated at the claimed scenario (payouts
totalling 10000, one paid withdrawal of 4000), would give 6000, reject a
request of 6001 and accept one of 6000. -/
theorem wallet_balance_raises_type_error :
    (∀ (profile : SellerProfile) (payouts : List SellerPayout)
      (requests : List PayoutRequest),
      wallet_balance profile payouts requests = .error .relatedInstanceTypeMismatch) ∧
    wallet_balance_intended seller1 payouts1 requests1 = 6000 ∧
    (request_payout_intended seller1 payouts1 requests1 6001).1 = .insufficientBalance ∧
    (request_payout_intended seller1 payouts1 requests1 6000).1 = .created := by
  refine ⟨fun _ _ _ => rfl, ?_, ?_, ?_⟩
  · simp [wallet_balance_intended, seller1, payouts1, requests1,
      PayoutRequestStatus.isPendingOrPaid]
    norm_num
  · simp [request_payout_intended, wallet_balance_intended, seller1, payouts1,
      requests1, PayoutRequestStatus.isPendingOrPaid]
    norm_num
  · simp [request_payout_intended, wallet_balance_intended, seller1, payouts1,
      requests1, PayoutRequestStatus.isPendingOrPaid]
    norm_num

/-- C7 (code_bug).  The request_payout view reads seller.wallet_balance
before examining the posted amount, so every request aborts with the
ValueError of C6 and no PayoutRequest is ever created or rejected on the
contract grounds; the contract itself (InvalidAmount for amount at most 0,
InsufficientBalance above the derived balance, else exactly one pending
request with a bank snapshot) holds of the intended logic modelled from the
spec. -/
theorem request_payout_always_raises :
    (∀ (profile : SellerProfile) (payouts : List SellerPayout)
      (requests : List PayoutRequest) (amount : ℚ),
      request_payout profile payouts requests amount
        = .error .relatedInstanceTypeMismatch) ∧
    (∀ (profile : SellerProfile) (payouts : List SellerPayout)
      (requests : List PayoutRequest) (amount : ℚ),
      (amount ≤ 0 →
        request_payout_intended profile payouts requests amount
          = (.invalidAmount, requests)) ∧
      (0 < amount → wallet_balance_intended profile payouts requests < amount →
        request_payout_intended profile payouts requests amount
          = (.insufficientBalance, requests)) ∧
      (0 < amount → amount ≤ wallet_balance_intended profile payouts requests →
        request_payout_intended profile payouts requests amount
          = (.created, requests ++
              [{ seller_id := profile.sid, amount := amount,
                 bank_details := bankSnapshot profile, status := .pending }]))) := by
  refine ⟨fun _ _ _ _ => rfl, ?_⟩
  intro profile payouts requests amount
  refine ⟨?_, ?_, ?_⟩
  · intro h
    simp [request_payout_intended, h]
  · intro h1 h2
    rw [request_payout_intended, if_neg (not_le.mpr h1), if_pos h2]
  · intro h1 h2
    rw [request_payout_intended, if_neg (not_le.mpr h1), if_neg (not_lt.mpr h2)]

/-- Witness for C7: at the concrete scenario the live view raises while the
intended contract creates the pending request of 6000. -/
theorem request_payout_always_raises_witness :
    request_payout seller1 payouts1 requests1 6000
      = .error .relatedInstanceTypeMismatch ∧
    request_payout_intended seller1 payouts1 requests1 6000
      = (.created, requests1 ++
          [{ seller_id := 1, amount := 6000,
             bank_details := bankSnapshot seller1, status := .pending }]) :=
  ⟨request_payout_always_raises.1 seller1 payouts1 requests1 6000,
   (request_payout_always_raises.2 seller1 payouts1 requests1 6000).2.2
     (by norm_num)
     (by simp [wallet_balance_intended, seller1, payouts1, requests1,
           PayoutRequestStatus.isPendingOrPaid]
         norm_num)⟩

end Jodise
